import Mathlib

/-!
# Verification of `nox_poetry/poetry.py`

A shallow embedding of the Poetry interface module of `nox-poetry`:
the `Config` class (manifest reading and installed-version capability
check) and the `Poetry` class (the `export` and `build` subcommand
adapters together with their output parsing).

Machine-level effects are made explicit: the Nox session's
`run_always` becomes a function from an argument list to
`Option String` (`none` is the skip sentinel), Python exceptions
become an `Except` error type, and the lazily initialised
configuration cache becomes explicit state passing.
-/

namespace NoxPoetry

/-! ## Versions (`packaging.version.Version`)

`Config.is_compatible_with_group_deps` compares the installed poetry
version against `Version("1.2.0")` with `>=`.  We embed the fragment
of `packaging.version` ordering that is relevant: an epoch, a release
tuple (compared component-wise with trailing zeros stripped) and an
optional pre-release segment (a pre-release sorts before the same
release without one). -/

/-- A PEP 440 style version: epoch, release components, and an optional
pre-release pair (phase code: 0 = a/alpha, 1 = b/beta, 2 = rc; and the
pre-release number). -/
structure PyVersion where
  epoch : Nat
  release : List Nat
  pre : Option (Nat × Nat)
  deriving Repr, DecidableEq

/-- Strip trailing zero components of a release tuple, as
`packaging.version._cmpkey` does before comparing. -/
def stripTrailingZeros (release : List Nat) : List Nat :=
  (release.reverse.dropWhile (· = 0)).reverse

/-- Lexicographic comparison of release tuples (shorter tuple compares
as if padded — after stripping trailing zeros, a strict prefix is
smaller). -/
def cmpRelease : List Nat → List Nat → Ordering
  | [], [] => .eq
  | [], _ :: _ => .lt
  | _ :: _, [] => .gt
  | a :: as, b :: bs =>
    match compare a b with
    | .eq => cmpRelease as bs
    | o => o

/-- Comparison of the pre-release segments: a version with a
pre-release sorts before the same release without one
(`packaging.version` uses an `Infinity` sentinel for the latter). -/
def cmpPre : Option (Nat × Nat) → Option (Nat × Nat) → Ordering
  | none, none => .eq
  | none, some _ => .gt
  | some _, none => .lt
  | some (p, n), some (q, m) =>
    match compare p q with
    | .eq => compare n m
    | o => o

/-- Version comparison, as `packaging.version.Version` implements it
on the modelled fragment: epoch, then release, then pre-release. -/
def PyVersion.cmp (a b : PyVersion) : Ordering :=
  match compare a.epoch b.epoch with
  | .eq =>
    match cmpRelease (stripTrailingZeros a.release) (stripTrailingZeros b.release) with
    | .eq => cmpPre a.pre b.pre
    | o => o
  | o => o

/-- Python `a >= b` on versions. -/
def PyVersion.ge (a b : PyVersion) : Bool :=
  PyVersion.cmp a b ≠ .lt

/-- The class constant
`Config.MINIMUM_VERSION_SUPPORTING_GROUP_DEPS = Version("1.2.0")`. -/
def MINIMUM_VERSION_SUPPORTING_GROUP_DEPS : PyVersion :=
  { epoch := 0, release := [1, 2, 0], pre := none }

/-- The classmethod `Config.is_compatible_with_group_deps`, with the installed poetry
version (read by `Config.version` from package metadata) passed
explicitly:
`return cls.version() >= cls.MINIMUM_VERSION_SUPPORTING_GROUP_DEPS`. -/
def is_compatible_with_group_deps (installed : PyVersion) : Bool :=
  PyVersion.ge installed MINIMUM_VERSION_SUPPORTING_GROUP_DEPS

/-! ## The `export` command line

`Poetry.export` builds
`["poetry", "export", "--format=requirements.txt",
  *[f"--extras={extra}" ...], "--without-hashes"]`
then appends `--only=<group>` flags (when `groups` is truthy), or
`--with=dev` (when the installed poetry supports dependency groups),
or `--dev`. -/

/-- Truthiness of the Python `Optional[List[str]]` argument `groups`:
`None` and the empty list are falsy. -/
def groupsTruthy : Option (List String) → Bool
  | none => false
  | some gs => !gs.isEmpty

/-- The argument list built by `Poetry.export` (lines 111–124),
with the data it reads from `self.config` — the declared extras and
the group-deps compatibility of the installed poetry — passed
explicitly. -/
def exportArgs (extras : List String) (compatible : Bool)
    (groups : Option (List String)) : List String :=
  let args : List String :=
    ["poetry", "export", "--format=requirements.txt"]
      ++ extras.map (fun extra => "--extras=" ++ extra)
      ++ ["--without-hashes"]
  if groupsTruthy groups then
    args ++ (groups.getD []).map (fun group => "--only=" ++ group)
  else if compatible then
    args ++ ["--with=dev"]
  else
    args ++ ["--dev"]

/-! ## Python string primitives used by the module

`export` post-processes its captured output with
`output.splitlines(keepends=True)` and `line.startswith("Warning:")`;
`build` uses `output.split()`.  These are embedded at the
`List Char` level. -/

/-- The line boundaries recognised by Python `str.splitlines`:
LF, VT, FF, CR, FS, GS, RS, NEL, LINE SEPARATOR, PARAGRAPH SEPARATOR
(CRLF is handled as a single boundary in `splitlinesAux`). -/
def isLineBoundary (c : Char) : Bool :=
  c.val = 0x0a || c.val = 0x0b || c.val = 0x0c || c.val = 0x0d ||
  c.val = 0x1c || c.val = 0x1d || c.val = 0x1e || c.val = 0x85 ||
  c.val = 0x2028 || c.val = 0x2029

/-- Worker for `str.splitlines(keepends=True)`: `acc` holds the
current (reversed) partial line. -/
def splitlinesAux : List Char → List Char → List (List Char)
  | acc, [] => if acc.isEmpty then [] else [acc.reverse]
  | acc, '\r' :: '\n' :: rest =>
    (acc.reverse ++ ['\r', '\n']) :: splitlinesAux [] rest
  | acc, c :: cs =>
    if isLineBoundary c then (acc.reverse ++ [c]) :: splitlinesAux [] cs
    else splitlinesAux (c :: acc) cs

/-- Python `output.splitlines(keepends=True)`. -/
def pySplitlinesKeepends (s : String) : List String :=
  (splitlinesAux [] s.data).map String.mk

/-- Python `line.startswith(pre)`. -/
def startswith (line pre : String) : Bool :=
  pre.data.isPrefixOf line.data

/-- The characters Python `str.split()` (no separator argument)
treats as whitespace. -/
def isPySpace (c : Char) : Bool :=
  (0x09 ≤ c.val && c.val ≤ 0x0d) || (0x1c ≤ c.val && c.val ≤ 0x1f) ||
  c.val = 0x20 || c.val = 0x85 || c.val = 0xa0 || c.val = 0x1680 ||
  (0x2000 ≤ c.val && c.val ≤ 0x200a) || c.val = 0x2028 || c.val = 0x2029 ||
  c.val = 0x202f || c.val = 0x205f || c.val = 0x3000

/-- Worker for `str.split()`: split on runs of whitespace, discarding
empty tokens. -/
def pySplitAux : List Char → List Char → List (List Char)
  | acc, [] => if acc.isEmpty then [] else [acc.reverse]
  | acc, c :: cs =>
    if isPySpace c then
      if acc.isEmpty then pySplitAux [] cs
      else acc.reverse :: pySplitAux [] cs
    else pySplitAux (c :: acc) cs

/-- Python `output.split()`. -/
def pySplit (s : String) : List String :=
  (pySplitAux [] s.data).map String.mk

/-! ## Errors

The exceptions the module can raise: its own `CommandSkippedError`,
the `ValueError` from an invalid `DistributionFormat`, and the
`IndexError` from `output.split()[-1]` on an empty token list.
(`IncompatiblePoetryVersionError` is declared in the source but never
raised.) -/

/-- The exceptions raised by the embedded code paths. -/
inductive PyError where
  | commandSkippedError (msg : String)
  | valueError (msg : String)
  | indexError (msg : String)
  deriving Repr, DecidableEq

/-! ## `DistributionFormat` -/

/-- The enumeration `class DistributionFormat(str, Enum)`: exactly the two members
`WHEEL = "wheel"` and `SDIST = "sdist"`. -/
inductive DistributionFormat where
  | wheel
  | sdist
  deriving Repr, DecidableEq

/-- The `str` value of a member. -/
def DistributionFormat.value : DistributionFormat → String
  | .wheel => "wheel"
  | .sdist => "sdist"

/-- The call `DistributionFormat(format)`: coercion of a string into the
enumeration; `none` models the `ValueError` Python raises for any
other string. -/
def DistributionFormat.fromString (s : String) : Option DistributionFormat :=
  if s = "wheel" then some .wheel
  else if s = "sdist" then some .sdist
  else none

/-! ## `Poetry.export` -/

/-- The generator `_stripwarnings` together with the `print(line, file=sys.stderr)`
effect: returns the kept lines (to be joined into the result) and the
diverted `Warning:` lines, both in original order. -/
def stripwarnings : List String → List String × List String
  | [] => ([], [])
  | line :: lines =>
    let rest := stripwarnings lines
    if startswith line "Warning:" then (rest.1, line :: rest.2)
    else (line :: rest.1, rest.2)

/-- The text `export` returns for a captured output:
`"".join(_stripwarnings(output.splitlines(keepends=True)))`. -/
def exportReturnedText (output : String) : String :=
  String.join (stripwarnings (pySplitlinesKeepends output)).1

/-- The `Warning:` lines `export` prints to stderr, in order. -/
def exportWarningLines (output : String) : List String :=
  (stripwarnings (pySplitlinesKeepends output)).2

/-- The message of the `CommandSkippedError` raised by `export`. -/
def exportSkipMessage : String :=
  "The command `poetry export` was not executed" ++
    " (a possible cause is specifying `--no-install`)"

/-- The method `Poetry.export`.  The session's `run_always` is a function from
the argument list to `Option String` (`none` is Nox's skip sentinel);
the configuration data `export` reads (the declared extras and the
group-deps compatibility of the installed poetry) is passed
explicitly.  On success the result pairs the returned text with the
warning lines printed to stderr. -/
def «export» (extras : List String) (compatible : Bool)
    (run_always : List String → Option String)
    (groups : Option (List String)) : Except PyError (String × List String) :=
  match run_always (exportArgs extras compatible groups) with
  | none => .error (.commandSkippedError exportSkipMessage)
  | some output => .ok (exportReturnedText output, exportWarningLines output)

/-! ## `Poetry.build` -/

/-- The message of the `CommandSkippedError` raised by `build`. -/
def buildSkipMessage : String :=
  "The command `poetry build` was not executed" ++
    " (a possible cause is specifying `--no-install`)"

/-- The argument list built by `Poetry.build` for a coerced format. -/
def buildArgs (format : DistributionFormat) : List String :=
  ["poetry", "build", "--format=" ++ format.value, "--no-ansi"]

/-- The method `Poetry.build`: coerce `format` into the enumeration (raising
`ValueError` otherwise, before running anything), run
`poetry build --format=<value> --no-ansi`, raise `CommandSkippedError`
on the skip sentinel, and otherwise return `output.split()[-1]`
(an `IndexError` when the token list is empty). -/
def build (run_always : List String → Option String) (format : String) :
    Except PyError String :=
  match DistributionFormat.fromString format with
  | none => .error (.valueError (format ++ " is not a valid DistributionFormat"))
  | some fmt =>
    match run_always (buildArgs fmt) with
    | none => .error (.commandSkippedError buildSkipMessage)
    | some output =>
      match (pySplit output).getLast? with
      | none => .error (.indexError "list index out of range")
      | some tok => .ok tok

/-! ## `Config`: manifest reading -/

/-- The fragment of TOML values the module inspects: strings, tables
(association lists, preserving declaration order), and everything
else. -/
inductive TomlValue where
  | str (s : String)
  | table (entries : List (String × TomlValue))
  | other

/-- Dictionary lookup on a table's entries (first match). -/
def tomlLookup (k : String) : List (String × TomlValue) → Option TomlValue
  | [] => none
  | (key, v) :: rest => if key = k then some v else tomlLookup k rest

/-- A `Config` instance: `self._config` is the parsed
`tool.poetry` table of the manifest. -/
structure Config where
  _config : List (String × TomlValue)

/-- The property `Config.name`: `self._config["name"]` (a `KeyError` if missing,
modelled by `valueError` of the key) followed by
`assert isinstance(name, str)`. -/
def Config.name (c : Config) : Except PyError String :=
  match tomlLookup "name" c._config with
  | none => .error (.valueError "name")
  | some (.str s) => .ok s
  | some _ => .error (.valueError "assert isinstance(name, str)")

/-- The property `Config.extras`: `self._config.get("extras", {})`, then
`assert isinstance(extras, dict) and all(isinstance(extra, str) ...)`
(table keys are strings by construction here), then `list(extras)` —
the keys in declaration order. -/
def Config.extras (c : Config) : Except PyError (List String) :=
  match (tomlLookup "extras" c._config).getD (.table []) with
  | .table entries => .ok (entries.map Prod.fst)
  | _ => .error (.valueError "assert isinstance(extras, dict)")

/-! ## `Poetry` instance state: the lazy configuration cache -/

/-- A `Poetry` instance: the session (as its `run_always` function)
and the `Optional[Config]` cache backing the `config` property. -/
structure Poetry where
  session : List String → Option String
  _config : Option Config

/-- The constructor `Poetry.__init__`: stores the session and sets
`_config = None`. -/
def Poetry.init (session : List String → Option String) : Poetry :=
  { session := session, _config := none }

/-- The `Poetry.config` property as a state transformer:
`loadConfig` models the `Config(Path.cwd())` constructor call, made
only when the cache is empty. -/
def Poetry.getConfig (loadConfig : Unit → Config) (p : Poetry) :
    Config × Poetry :=
  match p._config with
  | none =>
    let c := loadConfig ()
    (c, { p with _config := some c })
  | some c => (c, p)

/-! ## Helper lemmas -/

/-- Reassembly for `splitlines(keepends=True)`: joining the produced
lines (which keep their terminators) gives back the split text,
prefixed by the pending partial line. -/
theorem splitlinesAux_flatten (acc cs : List Char) :
    (splitlinesAux acc cs).flatten = acc.reverse ++ cs := by
  induction acc, cs using splitlinesAux.induct with
  | case1 acc h =>
    simp [splitlinesAux.eq_1, h, List.isEmpty_iff.mp h]
  | case2 acc h =>
    simp [splitlinesAux.eq_1, h]
  | case3 acc rest ih =>
    simp [splitlinesAux.eq_2, ih]
  | case4 acc c cs hne hb ih =>
    rw [splitlinesAux.eq_3 _ _ _ hne]
    simp [hb, ih]
  | case5 acc c cs hne hb ih =>
    rw [splitlinesAux.eq_3 _ _ _ hne]
    simp [hb, ih]

theorem join_map_mk (ls : List (List Char)) :
    String.join (ls.map String.mk) = String.mk ls.flatten := by
  rw [String.join_eq]
  congr 1
  induction ls with
  | nil => rfl
  | cons l ls ih => simpa [Function.comp] using ih

/-- Joining the lines of `pySplitlinesKeepends` restores the text. -/
theorem join_pySplitlinesKeepends (s : String) :
    String.join (pySplitlinesKeepends s) = s := by
  rw [pySplitlinesKeepends, join_map_mk, splitlinesAux_flatten]
  rfl

/-- The kept lines of `stripwarnings` are exactly the lines not
starting with `Warning:`, in order. -/
theorem stripwarnings_fst (ls : List String) :
    (stripwarnings ls).1 = ls.filter (fun l => !(startswith l "Warning:")) := by
  induction ls with
  | nil => rfl
  | cons line ls ih =>
    by_cases h : startswith line "Warning:" <;>
      simp [stripwarnings, h, List.filter, ih]

/-- The diverted lines of `stripwarnings` are exactly the lines
starting with `Warning:`, in order. -/
theorem stripwarnings_snd (ls : List String) :
    (stripwarnings ls).2 = ls.filter (fun l => startswith l "Warning:") := by
  induction ls with
  | nil => rfl
  | cons line ls ih =>
    by_cases h : startswith line "Warning:" <;>
      simp [stripwarnings, h, List.filter, ih]

/-- A string starting with the literal prefix `pre` differs from any
`target` whose leading characters differ from `pre`. -/
theorem append_ne_of_take_ne (pre target s : String)
    (h : target.data.take pre.data.length ≠ pre.data) :
    pre ++ s ≠ target := by
  intro hc
  apply h
  have hd := congrArg String.data hc
  rw [String.data_append] at hd
  rw [← hd]
  exact List.take_left _ _

/-- Splitting on whitespace yields no token exactly when every
character is whitespace (helper for `pySplit`). -/
theorem pySplitAux_ne_nil (cs : List Char) :
    ∀ acc : List Char, acc ≠ [] → pySplitAux acc cs ≠ [] := by
  induction cs with
  | nil =>
    intro acc h
    simp [pySplitAux, h]
  | cons c cs ih =>
    intro acc h
    by_cases hc : isPySpace c
    · simp [pySplitAux, hc, h]
    · simpa [pySplitAux, hc] using ih (c :: acc) (by simp)

theorem pySplitAux_nil_iff (cs : List Char) :
    pySplitAux [] cs = [] ↔ ∀ c ∈ cs, isPySpace c = true := by
  induction cs with
  | nil => simp [pySplitAux]
  | cons c cs ih =>
    by_cases hc : isPySpace c
    · simp [pySplitAux, hc, ih]
    · simp only [pySplitAux, hc]
      simp only [List.isEmpty_nil, if_true]
      constructor
      · intro h
        exact absurd h (pySplitAux_ne_nil cs [c] (by simp))
      · intro h
        exact absurd (h c (by simp)) (by simp [hc])

/-- Emptiness of `output.split()`: it is empty exactly when the output is all
whitespace. -/
theorem pySplit_eq_nil_iff (s : String) :
    pySplit s = [] ↔ ∀ c ∈ s.data, isPySpace c = true := by
  rw [pySplit, List.map_eq_nil_iff]
  exact pySplitAux_nil_iff s.data

/-- Every element of the export argument list in the `--only` branch
is one of the fixed flags, an extras flag, or an only flag. -/
theorem mem_exportArgs_only_cases (extras gs : List String) (s : String)
    (h : s ∈ ["poetry", "export", "--format=requirements.txt"]
        ++ extras.map (fun extra => "--extras=" ++ extra)
        ++ ["--without-hashes"]
        ++ gs.map (fun group => "--only=" ++ group)) :
    s = "poetry" ∨ s = "export" ∨ s = "--format=requirements.txt"
      ∨ s = "--without-hashes"
      ∨ (∃ e, s = "--extras=" ++ e) ∨ (∃ g, s = "--only=" ++ g) := by
  rcases List.mem_append.mp h with h1 | hOnly
  rcases List.mem_append.mp h1 with h2 | hWh
  rcases List.mem_append.mp h2 with hFixed | hExtras
  · simp only [List.mem_cons, List.not_mem_nil, or_false] at hFixed
    rcases hFixed with h | h | h
    · exact Or.inl h
    · exact Or.inr (Or.inl h)
    · exact Or.inr (Or.inr (Or.inl h))
  · obtain ⟨e, -, he⟩ := List.mem_map.mp hExtras
    exact Or.inr (Or.inr (Or.inr (Or.inr (Or.inl ⟨e, he.symm⟩))))
  · simp only [List.mem_cons, List.not_mem_nil, or_false] at hWh
    exact Or.inr (Or.inr (Or.inr (Or.inl hWh)))
  · obtain ⟨g, -, hg⟩ := List.mem_map.mp hOnly
    exact Or.inr (Or.inr (Or.inr (Or.inr (Or.inr ⟨g, hg.symm⟩))))

/-- Neither `--dev` nor `--with=dev` occurs in the export argument
list when group `--only` flags are used. -/
theorem dev_flags_not_mem (extras gs : List String) :
    "--dev" ∉ (["poetry", "export", "--format=requirements.txt"]
        ++ extras.map (fun extra => "--extras=" ++ extra)
        ++ ["--without-hashes"]
        ++ gs.map (fun group => "--only=" ++ group))
    ∧ "--with=dev" ∉ (["poetry", "export", "--format=requirements.txt"]
        ++ extras.map (fun extra => "--extras=" ++ extra)
        ++ ["--without-hashes"]
        ++ gs.map (fun group => "--only=" ++ group)) := by
  constructor
  · intro h
    rcases mem_exportArgs_only_cases extras gs _ h with
      h | h | h | h | ⟨e, he⟩ | ⟨g, hg⟩
    · exact absurd h (by decide)
    · exact absurd h (by decide)
    · exact absurd h (by decide)
    · exact absurd h (by decide)
    · exact append_ne_of_take_ne "--extras=" "--dev" e (by decide) he.symm
    · exact append_ne_of_take_ne "--only=" "--dev" g (by decide) hg.symm
  · intro h
    rcases mem_exportArgs_only_cases extras gs _ h with
      h | h | h | h | ⟨e, he⟩ | ⟨g, hg⟩
    · exact absurd h (by decide)
    · exact absurd h (by decide)
    · exact absurd h (by decide)
    · exact absurd h (by decide)
    · exact append_ne_of_take_ne "--extras=" "--with=dev" e (by decide) he.symm
    · exact append_ne_of_take_ne "--only=" "--with=dev" g (by decide) hg.symm

/-! ## Claim theorems -/

/-- C1: if `groups` is supplied and non-empty, the export command line
carries one `--only=<group>` flag per named group in the given order
and contains neither `--dev` nor `--with=dev`; if `groups` is absent
or empty, it ends with `--with=dev` when the installed poetry is
`>= 1.2.0` and with `--dev` otherwise. -/
theorem export_group_selection_policy
    (extras : List String) (installed : PyVersion)
    (groups : Option (List String)) (gs : List String) :
    (groups = some gs → gs ≠ [] →
      exportArgs extras (is_compatible_with_group_deps installed) groups
          = ["poetry", "export", "--format=requirements.txt"]
              ++ extras.map (fun extra => "--extras=" ++ extra)
              ++ ["--without-hashes"]
              ++ gs.map (fun group => "--only=" ++ group)
        ∧ "--dev" ∉ exportArgs extras (is_compatible_with_group_deps installed) groups
        ∧ "--with=dev" ∉ exportArgs extras (is_compatible_with_group_deps installed) groups)
    ∧ ((groups = none ∨ groups = some []) →
        PyVersion.ge installed MINIMUM_VERSION_SUPPORTING_GROUP_DEPS = true →
        exportArgs extras (is_compatible_with_group_deps installed) groups
          = ["poetry", "export", "--format=requirements.txt"]
              ++ extras.map (fun extra => "--extras=" ++ extra)
              ++ ["--without-hashes"] ++ ["--with=dev"])
    ∧ ((groups = none ∨ groups = some []) →
        PyVersion.ge installed MINIMUM_VERSION_SUPPORTING_GROUP_DEPS = false →
        exportArgs extras (is_compatible_with_group_deps installed) groups
          = ["poetry", "export", "--format=requirements.txt"]
              ++ extras.map (fun extra => "--extras=" ++ extra)
              ++ ["--without-hashes"] ++ ["--dev"]) := by
  refine ⟨?_, ?_, ?_⟩
  · intro hg hne
    subst hg
    have ht : groupsTruthy (some gs) = true := by
      simp [groupsTruthy, hne]
    constructor
    · simp [exportArgs, ht]
    · have := dev_flags_not_mem extras gs
      constructor
      · simpa [exportArgs, ht] using this.1
      · simpa [exportArgs, ht] using this.2
  · intro hg hc
    have ht : groupsTruthy groups = false := by
      rcases hg with h | h <;> subst h <;> simp [groupsTruthy]
    simp [exportArgs, ht, is_compatible_with_group_deps, hc]
  · intro hg hc
    have ht : groupsTruthy groups = false := by
      rcases hg with h | h <;> subst h <;> simp [groupsTruthy]
    simp [exportArgs, ht, is_compatible_with_group_deps, hc]

/-- Witness for C1 at concrete inputs: poetry 1.1.0 with groups
`["a", "b"]` (only flags, no dev flags), and `groups = None` at
poetry 1.2.0 (`--with=dev`) and poetry 1.1.0 (`--dev`). -/
theorem export_group_selection_policy_witness :
    (exportArgs ["e"] (is_compatible_with_group_deps ⟨0, [1, 1, 0], none⟩)
          (some ["a", "b"])
        = ["poetry", "export", "--format=requirements.txt", "--extras=e",
           "--without-hashes", "--only=a", "--only=b"]
      ∧ "--dev" ∉ exportArgs ["e"] (is_compatible_with_group_deps ⟨0, [1, 1, 0], none⟩)
          (some ["a", "b"])
      ∧ "--with=dev" ∉ exportArgs ["e"] (is_compatible_with_group_deps ⟨0, [1, 1, 0], none⟩)
          (some ["a", "b"]))
    ∧ exportArgs ["e"] (is_compatible_with_group_deps ⟨0, [1, 2, 0], none⟩) none
        = ["poetry", "export", "--format=requirements.txt", "--extras=e",
           "--without-hashes", "--with=dev"]
    ∧ exportArgs ["e"] (is_compatible_with_group_deps ⟨0, [1, 1, 0], none⟩) none
        = ["poetry", "export", "--format=requirements.txt", "--extras=e",
           "--without-hashes", "--dev"] := by
  refine ⟨?_, ?_, ?_⟩
  · have h := (export_group_selection_policy ["e"] ⟨0, [1, 1, 0], none⟩
      (some ["a", "b"]) ["a", "b"]).1 rfl (by decide)
    exact ⟨by simpa using h.1, h.2.1, h.2.2⟩
  · have h := (export_group_selection_policy ["e"] ⟨0, [1, 2, 0], none⟩
      none ["a"]).2.1 (Or.inl rfl) (by decide)
    simpa using h
  · have h := (export_group_selection_policy ["e"] ⟨0, [1, 1, 0], none⟩
      none ["a"]).2.2 (Or.inl rfl) (by decide)
    simpa using h

/-- C2: `is_compatible_with_group_deps` holds exactly when the
installed version compares greater than or equal to `1.2.0` under
component-wise version precedence; concretely it is false at `1.1.9`,
true at `1.2.0`, `1.2.1` and `1.3.0a0` (a pre-release, which itself
precedes `1.3.0`), and true at `1.10.0` (which a string comparison
would wrongly reject). -/
theorem is_compatible_with_group_deps_spec (v : PyVersion) :
    (is_compatible_with_group_deps v = true ↔
      PyVersion.cmp v MINIMUM_VERSION_SUPPORTING_GROUP_DEPS = .gt ∨
      PyVersion.cmp v MINIMUM_VERSION_SUPPORTING_GROUP_DEPS = .eq)
    ∧ is_compatible_with_group_deps ⟨0, [1, 1, 9], none⟩ = false
    ∧ is_compatible_with_group_deps ⟨0, [1, 2, 0], none⟩ = true
    ∧ is_compatible_with_group_deps ⟨0, [1, 2, 1], none⟩ = true
    ∧ is_compatible_with_group_deps ⟨0, [1, 3, 0], some (0, 0)⟩ = true
    ∧ PyVersion.cmp ⟨0, [1, 3, 0], some (0, 0)⟩ ⟨0, [1, 3, 0], none⟩ = .lt
    ∧ is_compatible_with_group_deps ⟨0, [1, 10, 0], none⟩ = true := by
  refine ⟨?_, by decide, by decide, by decide, by decide, by decide, by decide⟩
  rw [is_compatible_with_group_deps, PyVersion.ge]
  rcases h : PyVersion.cmp v MINIMUM_VERSION_SUPPORTING_GROUP_DEPS <;> simp

/-- C3: splitting any captured export output into terminator-keeping
lines, the returned text is the concatenation, in order, of exactly
the lines not starting with `Warning:` (and joining all lines
restores the output, so nothing else is dropped), while the lines
starting with `Warning:` go verbatim, in order, to stderr. -/
theorem export_warning_filtering (output : String) (extras : List String)
    (compatible : Bool) (groups : Option (List String)) :
    String.join (pySplitlinesKeepends output) = output
    ∧ exportReturnedText output
        = String.join ((pySplitlinesKeepends output).filter
            (fun line => !(startswith line "Warning:")))
    ∧ exportWarningLines output
        = (pySplitlinesKeepends output).filter
            (fun line => startswith line "Warning:")
    ∧ «export» extras compatible (fun _ => some output) groups
        = .ok (exportReturnedText output, exportWarningLines output) := by
  refine ⟨join_pySplitlinesKeepends output, ?_, ?_, rfl⟩
  · rw [exportReturnedText, stripwarnings_fst]
  · rw [exportWarningLines, stripwarnings_snd]

/-- C4: when the execution context returns the skip sentinel, both
`export` and `build` raise `CommandSkippedError` (so neither returns
a value), and the error messages name the skipped command
(`poetry export` resp. `poetry build`) and a likely cause. -/
theorem skip_sentinel_raises_command_skipped
    (extras : List String) (compatible : Bool) (groups : Option (List String))
    (run₁ run₂ : List String → Option String)
    (fmt : DistributionFormat) (f : String)
    (h1 : run₁ (exportArgs extras compatible groups) = none)
    (h2 : DistributionFormat.fromString f = some fmt)
    (h3 : run₂ (buildArgs fmt) = none) :
    «export» extras compatible run₁ groups
      = .error (.commandSkippedError exportSkipMessage)
    ∧ build run₂ f = .error (.commandSkippedError buildSkipMessage)
    ∧ exportSkipMessage = "The command `poetry export` was not executed" ++
        " (a possible cause is specifying `--no-install`)"
    ∧ buildSkipMessage = "The command `poetry build` was not executed" ++
        " (a possible cause is specifying `--no-install`)" := by
  refine ⟨?_, ?_, rfl, rfl⟩
  · rw [«export», h1]
  · simp [build, h2, h3]

/-- Witness for C4: a session whose `run_always` always returns the
skip sentinel, at `groups = None` and `format = "wheel"`. -/
theorem skip_sentinel_raises_command_skipped_witness :
    «export» [] true (fun _ => none) none
      = .error (.commandSkippedError exportSkipMessage)
    ∧ build (fun _ => none) "wheel"
      = .error (.commandSkippedError buildSkipMessage) := by
  have h := skip_sentinel_raises_command_skipped [] true none
    (fun _ => none) (fun _ => none) .wheel "wheel" rfl rfl rfl
  exact ⟨h.1, h.2.1⟩

/-- C5: `build` rejects any format string other than `wheel` and
`sdist` with a `ValueError` from the enumeration coercion, without
consulting the execution context (the result is the same for every
session); for `wheel` and `sdist` the coercion succeeds and the
command line carries `--format=<value>`. -/
theorem build_format_validation (f : String)
    (run run₂ : List String → Option String)
    (h1 : f ≠ "wheel") (h2 : f ≠ "sdist") :
    build run f = .error (.valueError (f ++ " is not a valid DistributionFormat"))
    ∧ build run f = build run₂ f
    ∧ DistributionFormat.fromString "wheel" = some .wheel
    ∧ DistributionFormat.fromString "sdist" = some .sdist
    ∧ buildArgs .wheel = ["poetry", "build", "--format=wheel", "--no-ansi"]
    ∧ buildArgs .sdist = ["poetry", "build", "--format=sdist", "--no-ansi"] := by
  have hf : DistributionFormat.fromString f = none := by
    simp [DistributionFormat.fromString, h1, h2]
  refine ⟨?_, ?_, rfl, rfl, rfl, rfl⟩
  · rw [build, hf]
  · rw [build, build, hf]

/-- Witness for C5: `build(format="zip")` fails with the invalid
format error, identically for a skipping and a non-skipping
session. -/
theorem build_format_validation_witness :
    build (fun _ => some "out.whl") "zip"
      = .error (.valueError ("zip" ++ " is not a valid DistributionFormat"))
    ∧ build (fun _ => some "out.whl") "zip" = build (fun _ => none) "zip" := by
  have h := build_format_validation "zip" (fun _ => some "out.whl")
    (fun _ => none) (by decide) (by decide)
  exact ⟨h.1, h.2.1⟩

/-- C6: a non-skipped build returns the final whitespace-delimited
token of the captured output. -/
theorem build_returns_last_token (run : List String → Option String)
    (f : String) (fmt : DistributionFormat) (output tok : String)
    (h1 : DistributionFormat.fromString f = some fmt)
    (h2 : run (buildArgs fmt) = some output)
    (h3 : (pySplit output).getLast? = some tok) :
    build run f = .ok tok := by
  simp [build, h1, h2, h3]

/-- Witness for C6: the documented example output yields exactly
`foobar-0.1.0-py3-none-any.whl`. -/
theorem build_returns_last_token_witness :
    build (fun _ => some ("Building foobar (0.1.0)\n - Building wheel\n" ++
        " - Built foobar-0.1.0-py3-none-any.whl\n")) "wheel"
      = .ok "foobar-0.1.0-py3-none-any.whl" :=
  build_returns_last_token _ "wheel" .wheel
    ("Building foobar (0.1.0)\n - Building wheel\n" ++
      " - Built foobar-0.1.0-py3-none-any.whl\n")
    "foobar-0.1.0-py3-none-any.whl" rfl rfl (by decide)

/-- C7: the export command line always begins with the base export
command requesting requirements format, then one `--extras=<name>`
flag per declared extra in iteration order, then `--without-hashes`,
and only then the group-selection flags. -/
theorem export_args_layout (extras : List String) (compatible : Bool)
    (groups : Option (List String)) :
    ∃ tail,
      exportArgs extras compatible groups
        = ["poetry", "export", "--format=requirements.txt"]
            ++ extras.map (fun extra => "--extras=" ++ extra)
            ++ ["--without-hashes"] ++ tail
      ∧ tail = (if groupsTruthy groups then
            (groups.getD []).map (fun group => "--only=" ++ group)
          else if compatible then ["--with=dev"] else ["--dev"]) := by
  refine ⟨_, ?_, rfl⟩
  rw [exportArgs]
  by_cases ht : groupsTruthy groups
  · simp [ht]
  · by_cases hc : compatible <;> simp [ht, hc]

/-- C8: `Config.name` returns exactly the declared package-name
string, failing when it is missing or not a string; `Config.extras`
returns exactly the declared extras keys (the key set is unchanged
under any reordering of the declared entries), failing when the
declared extras value is not a table. -/
theorem config_name_and_extras
    (entries es₁ es₂ : List (String × TomlValue)) (nm : String) (v : TomlValue) :
    (tomlLookup "name" entries = some (.str nm) →
      Config.name ⟨entries⟩ = .ok nm)
    ∧ (tomlLookup "name" entries = none →
        ∃ msg, Config.name ⟨entries⟩ = .error msg)
    ∧ (tomlLookup "name" entries = some v → (∀ s, v ≠ .str s) →
        ∃ msg, Config.name ⟨entries⟩ = .error msg)
    ∧ (tomlLookup "extras" entries = some (.table es₁) →
        Config.extras ⟨entries⟩ = .ok (es₁.map Prod.fst))
    ∧ (tomlLookup "extras" entries = none → Config.extras ⟨entries⟩ = .ok [])
    ∧ (tomlLookup "extras" entries = some v → (∀ es, v ≠ .table es) →
        ∃ msg, Config.extras ⟨entries⟩ = .error msg)
    ∧ (es₁.Perm es₂ →
        (es₁.map Prod.fst).toFinset = (es₂.map Prod.fst).toFinset) := by
  refine ⟨?_, ?_, ?_, ?_, ?_, ?_, ?_⟩
  · intro h
    simp [Config.name, h]
  · intro h
    exact ⟨.valueError "name", by simp [Config.name, h]⟩
  · intro h hv
    cases v with
    | str s => exact absurd rfl (hv s)
    | table es =>
      exact ⟨.valueError "assert isinstance(name, str)", by simp [Config.name, h]⟩
    | other =>
      exact ⟨.valueError "assert isinstance(name, str)", by simp [Config.name, h]⟩
  · intro h
    simp [Config.extras, h]
  · intro h
    simp [Config.extras, h]
  · intro h hv
    cases v with
    | str s =>
      exact ⟨.valueError "assert isinstance(extras, dict)", by simp [Config.extras, h]⟩
    | table es => exact absurd rfl (hv es)
    | other =>
      exact ⟨.valueError "assert isinstance(extras, dict)", by simp [Config.extras, h]⟩
  · intro h
    exact List.toFinset_eq_of_perm _ _ (h.map Prod.fst)

/-- Witness for C8 on concrete manifests: a well-formed manifest, one
with a missing name, one with a non-string name, one with non-table
extras, and a reordering of the extras entries. -/
theorem config_name_and_extras_witness :
    Config.name ⟨[("name", .str "nox-poetry"),
        ("extras", .table [("a", .other), ("b", .other)])]⟩ = .ok "nox-poetry"
    ∧ Config.extras ⟨[("name", .str "nox-poetry"),
        ("extras", .table [("a", .other), ("b", .other)])]⟩ = .ok ["a", "b"]
    ∧ (∃ msg, Config.name ⟨[]⟩ = .error msg)
    ∧ (∃ msg, Config.name ⟨[("name", .other)]⟩ = .error msg)
    ∧ (∃ msg, Config.extras ⟨[("extras", .str "oops")]⟩ = .error msg)
    ∧ ((([("a", TomlValue.other), ("b", TomlValue.other)]).map
          Prod.fst).toFinset
        = (([("b", TomlValue.other), ("a", TomlValue.other)]).map
          Prod.fst).toFinset) := by
  refine ⟨?_, ?_, ?_, ?_, ?_, ?_⟩
  · exact (config_name_and_extras [("name", .str "nox-poetry"),
      ("extras", .table [("a", .other), ("b", .other)])] [] [] "nox-poetry"
      .other).1 rfl
  · exact (config_name_and_extras [("name", .str "nox-poetry"),
      ("extras", .table [("a", .other), ("b", .other)])]
      [("a", .other), ("b", .other)] [] "nox-poetry" .other).2.2.2.1 rfl
  · exact (config_name_and_extras [] [] [] "x" .other).2.1 rfl
  · exact (config_name_and_extras [("name", .other)] [] [] "x"
      .other).2.2.1 rfl (fun s h => TomlValue.noConfusion h)
  · exact (config_name_and_extras [("extras", .str "oops")] [] [] "x"
      (.str "oops")).2.2.2.2.2.1 rfl (fun es h => TomlValue.noConfusion h)
  · exact (config_name_and_extras [] [("a", .other), ("b", .other)]
      [("b", .other), ("a", .other)] "x" .other).2.2.2.2.2.2
      (List.Perm.swap _ _ _)

/-- C9: the configuration reader is lazily initialised — absent at
construction, created exactly once on first access to the `config`
property, cached, and every later access (whatever loader it would
use) returns the same object and leaves the instance unchanged. -/
theorem config_lazy_initialization
    (session : List String → Option String)
    (load load₂ : Unit → Config) (p : Poetry) (c : Config)
    (h : p._config = some c) :
    (Poetry.init session)._config = none
    ∧ Poetry.getConfig load (Poetry.init session)
        = (load (), { session := session, _config := some (load ()) })
    ∧ (Poetry.getConfig load (Poetry.init session)).2._config
        = some (load ())
    ∧ Poetry.getConfig load₂ p = (c, p) := by
  refine ⟨rfl, rfl, rfl, ?_⟩
  rw [Poetry.getConfig, h]

/-- Witness for C9 at a concrete instance: a session that skips
everything and a loader returning the empty configuration. -/
theorem config_lazy_initialization_witness :
    (Poetry.init fun _ => none)._config = none
    ∧ (Poetry.getConfig (fun _ => ⟨[]⟩) (Poetry.init fun _ => none)).2._config
        = some ⟨[]⟩
    ∧ Poetry.getConfig (fun _ => ⟨[("name", .str "later")]⟩)
        ⟨fun _ => none, some ⟨[]⟩⟩ = (⟨[]⟩, ⟨fun _ => none, some ⟨[]⟩⟩) := by
  have h := config_lazy_initialization (fun _ => none) (fun _ => ⟨[]⟩)
    (fun _ => ⟨[("name", .str "later")]⟩) ⟨fun _ => none, some ⟨[]⟩⟩ ⟨[]⟩ rfl
  exact ⟨h.1, h.2.2.1, h.2.2.2⟩

/-- C10: a non-skipped build whose captured output is empty or all
whitespace makes the final-token extraction fail with the untyped
`IndexError` (not a `CommandSkippedError`, not a `ValueError`, and no
returned filename); the last-token parse succeeds exactly on outputs
containing at least one non-whitespace character. -/
theorem build_last_token_partiality
    (run : List String → Option String) (f : String)
    (fmt : DistributionFormat) (output : String)
    (h1 : DistributionFormat.fromString f = some fmt)
    (h2 : run (buildArgs fmt) = some output) :
    build (fun _ => some "") "wheel"
      = .error (.indexError "list index out of range")
    ∧ build (fun _ => some " \n ") "wheel"
      = .error (.indexError "list index out of range")
    ∧ ((∀ ch ∈ output.data, isPySpace ch = true) →
        build run f = .error (.indexError "list index out of range"))
    ∧ ((∃ ch ∈ output.data, isPySpace ch = false) →
        ∃ tok, build run f = .ok tok) := by
  refine ⟨rfl, rfl, ?_, ?_⟩
  · intro hall
    have hnil : pySplit output = [] := (pySplit_eq_nil_iff output).mpr hall
    simp [build, h1, h2, hnil]
  · intro hex
    have hne : pySplit output ≠ [] := by
      intro hnil
      obtain ⟨ch, hch, hsp⟩ := hex
      have := (pySplit_eq_nil_iff output).mp hnil ch hch
      rw [this] at hsp
      exact Bool.noConfusion hsp
    obtain ⟨tok, htok⟩ := Option.ne_none_iff_exists'.mp
      (fun hn => hne (List.getLast?_eq_none_iff.mp hn))
    exact ⟨tok, by simp [build, h1, h2, htok]⟩

/-- Witness for C10: a session capturing the empty output produces
the `IndexError`, while one non-whitespace character suffices for a
token to be returned. -/
theorem build_last_token_partiality_witness :
    build (fun _ => some "") "wheel"
      = .error (.indexError "list index out of range")
    ∧ (∃ tok, build (fun _ => some "x") "wheel" = .ok tok) := by
  have h := build_last_token_partiality (fun _ => some "x") "wheel"
    .wheel "x" rfl rfl
  exact ⟨h.1, h.2.2.2 ⟨'x', by decide⟩⟩

end NoxPoetry
